import Mathlib

/-!
# Verification of the Calendrax booking backend

Shallow embedding of the parts of backend/server.py that the
specification claims talk about: subscription pricing, the checkout
session flow with deposit levels and offer codes, booking completion
with availability-slot consumption, the subscription billing webhook,
account reactivation, and appointment status updates.

Money is modelled as exact rationals (the Python code uses floats; all
concrete amounts in the claims are representable exactly, and the
rational model idealizes away binary floating point representation
error). Mongo collections are modelled as Lean lists in insertion
order; find_one returns the first match and update_one updates the
first match.
-/

namespace Calendrax

/-! ## Python value helpers

Some call sites pass values of different runtime types into the same
parameter (notably reactivate_account passes a boolean where
calculate_subscription_price expects the pricing-tier string), so the
tier parameter is embedded as a small dynamic value type with the
Python equality semantics: values of different types compare unequal.
-/

inductive PyVal where
  | str (s : String)
  | bool (b : Bool)
deriving DecidableEq, Repr

/-- Python == restricted to the value shapes that reach
calculate_subscription_price: a bool and a string are never equal. -/
def pyEq : PyVal → PyVal → Bool
  | PyVal.str a, PyVal.str b => a == b
  | PyVal.bool a, PyVal.bool b => a == b
  | _, _ => false

/-! ## Subscription pricing (server.py lines 84-93 and 1624-1635) -/

def CENTURION_BASE_PRICE : ℚ := 10
def CENTURION_ADDITIONAL_STAFF : ℚ := 5
def STANDARD_BASE_PRICE : ℚ := 16
def STANDARD_ADDITIONAL_STAFF : ℚ := 8

/-- calculate_subscription_price(staff_count, pricing_tier): centurion
tariff when pricing_tier == "centurion", standard tariff otherwise;
flat base for staff_count <= 1, base plus per-head increment above. -/
def calculate_subscription_price (staff_count : Int) (pricing_tier : PyVal) : ℚ :=
  let prices :=
    if pyEq pricing_tier (PyVal.str "centurion")
    then (CENTURION_BASE_PRICE, CENTURION_ADDITIONAL_STAFF)
    else (STANDARD_BASE_PRICE, STANDARD_ADDITIONAL_STAFF)
  if staff_count ≤ 1 then prices.1
  else prices.1 + prices.2 * ((staff_count - 1 : Int) : ℚ)

/-! ## Data model (Mongo documents as records, collections as lists) -/

structure UserDoc where
  id : String
  email : String
  fullName : String
  role : String
deriving DecidableEq, Repr

structure BusinessDoc where
  id : String
  ownerId : String
  businessName : String
  approved : Bool
  depositLevel : Option String
  stripeConnectOnboarded : Bool
  stripeConnectAccountId : Option String
  referralCode : Option String
  referredBy : Option String
  referralBonusPaid : Bool
  referralCredits : Int
  isCenturion : Bool
deriving DecidableEq, Repr

structure ServiceDoc where
  id : String
  businessId : String
  name : String
  price : ℚ
  duration : Option Int
deriving DecidableEq, Repr

structure StaffDoc where
  id : String
  businessId : String
  name : String
deriving DecidableEq, Repr

structure SubscriptionDoc where
  id : String
  businessId : String
  status : String
  lastPaymentStatus : String
  failedPayments : Int
  freeAccessOverride : Bool
  hasPaymentMethod : Bool
  stripeCustomerId : Option String
  stripeSubscriptionId : Option String
  stripePaymentMethodId : Option String
deriving DecidableEq, Repr

structure TransactionDoc where
  id : String
  userId : String
  serviceIds : List String
  serviceId : String
  businessId : String
  staffId : Option String
  date : String
  time : String
  totalDuration : Int
  amount : ℚ
  fullPrice : ℚ
  currency : String
  status : String
  paymentStatus : String
  offerCode : Option String
  sessionId : Option String
  refundAmount : Option ℚ
deriving DecidableEq, Repr

structure AppointmentDoc where
  id : String
  transactionId : String
  userId : String
  businessId : String
  serviceIds : List String
  serviceId : String
  serviceName : String
  staffId : Option String
  staffName : Option String
  date : String
  time : String
  duration : Int
  status : String
  paymentStatus : String
  paymentAmount : ℚ
  depositAmount : ℚ
  depositPaid : Bool
  offerCodeUsed : Option String
  depositRefunded : Bool
  refundAmount : Option ℚ
deriving DecidableEq, Repr

structure AvailabilityDoc where
  businessId : String
  date : String
  staffId : Option String
  slots : List String
deriving DecidableEq, Repr

structure NotificationDoc where
  id : String
  userId : String
  type : String
  title : String
  read : Bool
deriving DecidableEq, Repr

structure BillingDoc where
  id : String
  businessId : String
  type : String
  amount : ℚ
deriving DecidableEq, Repr

/-- The database: each collection is a list in insertion order.
find_one is List.find? and update_one rewrites the first match. -/
structure DB where
  users : List UserDoc
  businesses : List BusinessDoc
  services : List ServiceDoc
  staff : List StaffDoc
  subscriptions : List SubscriptionDoc
  payment_transactions : List TransactionDoc
  appointments : List AppointmentDoc
  availability : List AvailabilityDoc
  notifications : List NotificationDoc
  billing_history : List BillingDoc
deriving DecidableEq, Repr

/-- Mongo update_one: rewrite the first element satisfying p with f. -/
def updateFirst {α : Type} (p : α → Bool) (f : α → α) : List α → List α
  | [] => []
  | x :: xs => if p x then f x :: xs else x :: updateFirst p f xs

/-- Python truthiness of an optional string field: missing/None and the
empty string are falsy. -/
def truthy : Option String → Bool
  | none => false
  | some s => !(s == "")

/-- Python str.upper on the ASCII strings used as offer codes. -/
def pyUpper (s : String) : String := String.mk (s.data.map Char.toUpper)

/-- Python str.strip: drop leading and trailing whitespace. -/
def pyStrip (s : String) : String :=
  String.mk (((s.data.dropWhile Char.isWhitespace).reverse.dropWhile
    Char.isWhitespace).reverse)

/-- Round half to even, the tie rule of Python round, as an exact
operation on rationals (idealizing away binary float representation). -/
def roundHalfEven (x : ℚ) : Int :=
  if x - ⌊x⌋ < 1/2 then ⌊x⌋
  else if 1/2 < x - ⌊x⌋ then ⌊x⌋ + 1
  else if ⌊x⌋ % 2 = 0 then ⌊x⌋ else ⌊x⌋ + 1

/-- Python round(x, 2). -/
def pyRound2 (x : ℚ) : ℚ := (roundHalfEven (x * 100) : ℚ) / 100

/-- Closed form of the pricing function for string tiers: base plus
per-additional-staff increment, with the staff count clamped at 1. -/
theorem price_closed_form (sc : Int) (tier : String) :
    calculate_subscription_price sc (PyVal.str tier) =
      (if tier = "centurion" then (10 : ℚ) else 16) +
      (if tier = "centurion" then (5 : ℚ) else 8) * ((max 0 (sc - 1) : Int) : ℚ) := by
  unfold calculate_subscription_price CENTURION_BASE_PRICE CENTURION_ADDITIONAL_STAFF
    STANDARD_BASE_PRICE STANDARD_ADDITIONAL_STAFF
  by_cases ht : tier = "centurion" <;>
    simp only [pyEq, beq_iff_eq, ht, if_true, if_false, ite_true, ite_false] <;>
  · rcases le_or_lt sc 1 with hle | hlt
    · have hmax : max 0 (sc - 1) = 0 := by omega
      simp [hle, hmax]
    · have hmax : max 0 (sc - 1) = sc - 1 := by omega
      have h2 : ¬ sc ≤ 1 := by omega
      simp [h2, hmax]

/-- C2: the monthly subscription price equals
base(tier) + additional(tier) * max(0, staffCount - 1), with
(base, additional) = (10.00, 5.00) for centurion and (16.00, 8.00) for
standard; the price is monotonically non-decreasing in staffCount, and
centurion with staffCount = 3 gives 20.00. -/
theorem subscription_price_spec (sc sc' : Int) (tier : String)
    (htier : tier = "centurion" ∨ tier = "standard") (hmono : sc ≤ sc') :
    calculate_subscription_price sc (PyVal.str tier) =
      (if tier = "centurion" then (10 : ℚ) else 16) +
      (if tier = "centurion" then (5 : ℚ) else 8) * ((max 0 (sc - 1) : Int) : ℚ) ∧
    calculate_subscription_price sc (PyVal.str tier) ≤
      calculate_subscription_price sc' (PyVal.str tier) ∧
    calculate_subscription_price 3 (PyVal.str "centurion") = 20 := by
  refine ⟨price_closed_form sc tier, ?_, by rw [price_closed_form]; norm_num⟩
  rw [price_closed_form sc tier, price_closed_form sc' tier]
  have hmax : ((max 0 (sc - 1) : Int) : ℚ) ≤ ((max 0 (sc' - 1) : Int) : ℚ) := by
    exact_mod_cast max_le_max le_rfl (by omega)
  split_ifs <;> linarith [hmax]

/-- Witness for C2 at tier = centurion, staffCount 1 ≤ 3. -/
theorem subscription_price_spec_witness :
    calculate_subscription_price 1 (PyVal.str "centurion") =
      (if "centurion" = "centurion" then (10 : ℚ) else 16) +
      (if "centurion" = "centurion" then (5 : ℚ) else 8) *
        ((max 0 ((1 : Int) - 1) : Int) : ℚ) ∧
    calculate_subscription_price 1 (PyVal.str "centurion") ≤
      calculate_subscription_price 3 (PyVal.str "centurion") ∧
    calculate_subscription_price 3 (PyVal.str "centurion") = 20 :=
  subscription_price_spec 1 3 "centurion" (Or.inl rfl) (by decide)

/-! ## Checkout session creation (server.py lines 68-80 and 2612-2843) -/

/-- Offer codes that bypass payment (server.py lines 68-72). -/
def VALID_OFFER_CODES : List String := ["TESTFREE", "BOOKLE100", "STAFF2025"]

/-- Deposit level options as percentage of service price
(server.py lines 75-80). -/
def DEPOSIT_LEVELS : List (String × Nat) :=
  [("none", 0), ("20", 20), ("50", 50), ("full", 100)]

/-- DEPOSIT_LEVELS.get(key, default). -/
def depositLevelsGet (key : String) (default : Nat) : Nat :=
  match DEPOSIT_LEVELS.find? (fun p => p.1 == key) with
  | some p => p.2
  | none => default

structure PaymentRequest where
  serviceIds : List String
  businessId : String
  staffId : Option String
  date : String
  time : String
  originUrl : String
  offerCode : Option String
deriving DecidableEq, Repr

structure StripeSession where
  id : String
  url : String
deriving DecidableEq, Repr

inductive CheckoutResult where
  | httpError (status : Nat) (detail : String)
  | bypassed (transactionId : String) (message : String) (totalDuration : Int)
deriving DecidableEq, Repr

/-- Result of create_checkout_session: the database after the call, the
HTTP-level result, and the unit amounts (in pence) of every
stripe.checkout.Session.create call that was issued. -/
structure CheckoutOutcome where
  db : DB
  result : CheckoutResult
  gatewayUnitAmounts : List Int
deriving DecidableEq, Repr

/-- The service-fetch loop: look each id up in turn, 404 on the first
missing one (the error carries that id). -/
def fetch_services (st : DB) : List String → Except String (List ServiceDoc)
  | [] => Except.ok []
  | sid :: rest =>
    match st.services.find? (fun s => s.id == sid) with
    | none => Except.error sid
    | some s => (fetch_services st rest).map (fun l => s :: l)

/-- Local names assigned in create_checkout_session (its parameters and
every assignment target in its body, traced from the source). The
success response at server.py line 2835 reads the name service_price,
which is not among them, so building that response raises NameError and
the surrounding try/except returns HTTP 500 instead. -/
def create_checkout_session_locals : List String :=
  ["request", "data", "user",
   "business", "services", "total_price", "total_duration", "service_names",
   "sid", "service", "deposit_level", "deposit_percentage", "code",
   "transaction_id", "transaction_doc", "deposit_amount",
   "success_url", "cancel_url", "services_description", "stripe_account_id",
   "checkout_params", "PLATFORM_FEE_PERCENT", "application_fee", "session", "e"]

/-- The deposit flow of create_checkout_session, reached when no valid
offer code was supplied (server.py lines 2703-2843): bypass entirely at
deposit percentage 0, otherwise round the deposit to 2 decimal places,
raise it to the 0.50 gateway minimum, call the gateway and record the
pending transaction. gatewaySession models the result of
stripe.checkout.Session.create (none = the call raised). -/
def checkout_deposit_flow (st : DB) (data : PaymentRequest) (user : UserDoc)
    (transaction_id : String) (gatewaySession : Option StripeSession)
    (business : BusinessDoc) (services : List ServiceDoc) : CheckoutOutcome :=
  let total_price : ℚ := (services.map (fun s => s.price)).sum
  let total_duration : Int := (services.map (fun s => s.duration.getD 30)).sum
  let deposit_level := business.depositLevel.getD "20"
  let deposit_percentage := depositLevelsGet deposit_level 20
  if deposit_percentage == 0 then
    let tx : TransactionDoc :=
      { id := transaction_id, userId := user.id, serviceIds := data.serviceIds,
        serviceId := data.serviceIds.headD "", businessId := data.businessId,
        staffId := data.staffId, date := data.date, time := data.time,
        totalDuration := total_duration, amount := 0, fullPrice := total_price,
        currency := "gbp", status := "bypassed", paymentStatus := "no_deposit",
        offerCode := none, sessionId := none, refundAmount := none }
    ⟨{ st with payment_transactions := st.payment_transactions ++ [tx] },
      CheckoutResult.bypassed transaction_id "No deposit required for this business"
        total_duration, []⟩
  else
    let raw := pyRound2 (total_price * ((deposit_percentage : ℚ) / 100))
    let deposit_amount := if raw < 1/2 then (1/2 : ℚ) else raw
    let unit_amount : Int := ⌊deposit_amount * 100⌋
    match gatewaySession with
    | none =>
      ⟨st, CheckoutResult.httpError 500 "Failed to create payment session", [unit_amount]⟩
    | some session =>
      let tx : TransactionDoc :=
        { id := transaction_id, userId := user.id, serviceIds := data.serviceIds,
          serviceId := data.serviceIds.headD "", businessId := data.businessId,
          staffId := data.staffId, date := data.date, time := data.time,
          totalDuration := total_duration, amount := deposit_amount,
          fullPrice := total_price, currency := "gbp", status := "pending",
          paymentStatus := "initiated", offerCode := none,
          sessionId := some session.id, refundAmount := none }
      let st1 := { st with payment_transactions := st.payment_transactions ++ [tx] }
      if h : "service_price" ∈ create_checkout_session_locals then
        absurd h (by decide)
      else
        ⟨st1,
          CheckoutResult.httpError 500
            "Failed to create payment session: name service_price is not defined",
          [unit_amount]⟩

/-- create_checkout_session (server.py lines 2638-2843): validate the
business, fetch the services, take the offer-code bypass when a valid
code is supplied, otherwise fall through to the deposit flow. -/
def create_checkout_session (st : DB) (data : PaymentRequest) (user : UserDoc)
    (transaction_id : String) (gatewaySession : Option StripeSession) : CheckoutOutcome :=
  match st.businesses.find? (fun b => b.id == data.businessId) with
  | none => ⟨st, CheckoutResult.httpError 400 "Business not available", []⟩
  | some business =>
    if !business.approved then
      ⟨st, CheckoutResult.httpError 400 "Business not available", []⟩
    else
      match fetch_services st data.serviceIds with
      | Except.error sid =>
        ⟨st, CheckoutResult.httpError 404 ("Service " ++ sid ++ " not found"), []⟩
      | Except.ok services =>
        if services.isEmpty then
          ⟨st, CheckoutResult.httpError 400 "No services selected", []⟩
        else
          let total_price : ℚ := (services.map (fun s => s.price)).sum
          let total_duration : Int := (services.map (fun s => s.duration.getD 30)).sum
          match data.offerCode with
          | some oc =>
            if oc == "" then
              checkout_deposit_flow st data user transaction_id gatewaySession
                business services
            else
              let code := pyStrip (pyUpper oc)
              if VALID_OFFER_CODES.contains code then
                let tx : TransactionDoc :=
                  { id := transaction_id, userId := user.id,
                    serviceIds := data.serviceIds,
                    serviceId := data.serviceIds.headD "",
                    businessId := data.businessId, staffId := data.staffId,
                    date := data.date, time := data.time,
                    totalDuration := total_duration, amount := 0,
                    fullPrice := total_price, currency := "gbp",
                    status := "bypassed", paymentStatus := "bypassed",
                    offerCode := some code, sessionId := none, refundAmount := none }
                ⟨{ st with payment_transactions := st.payment_transactions ++ [tx] },
                  CheckoutResult.bypassed transaction_id
                    "Payment bypassed with offer code" total_duration, []⟩
              else
                checkout_deposit_flow st data user transaction_id gatewaySession
                  business services
          | none =>
            checkout_deposit_flow st data user transaction_id gatewaySession
              business services

/-- If the business validates, the services resolve, and no valid offer
code is supplied, create_checkout_session falls through to the deposit
flow. -/
theorem create_eq_deposit_flow (st : DB) (data : PaymentRequest) (user : UserDoc)
    (tid : String) (g : Option StripeSession) (b : BusinessDoc) (svcs : List ServiceDoc)
    (hb : st.businesses.find? (fun x => x.id == data.businessId) = some b)
    (happ : b.approved = true)
    (hsv : fetch_services st data.serviceIds = Except.ok svcs)
    (hne : svcs.isEmpty = false)
    (hoc : ∀ oc, data.offerCode = some oc →
      oc = "" ∨ pyStrip (pyUpper oc) ∉ VALID_OFFER_CODES) :
    create_checkout_session st data user tid g =
      checkout_deposit_flow st data user tid g b svcs := by
  unfold create_checkout_session
  rw [hb, hsv]
  simp only [happ, Bool.not_true, Bool.false_eq_true, if_false, hne]
  cases hov : data.offerCode with
  | none => rfl
  | some oc =>
    rcases hoc oc hov with h | h
    · subst h
      simp
    · have hcont : (VALID_OFFER_CODES.contains (pyStrip (pyUpper oc))) = false := by
        simpa using h
      cases he : (oc == "") with
      | true => simp only [he, if_true]
      | false => simp only [he, Bool.false_eq_true, if_false, hcont]

/-- Raising to the minimum charge as written in the source equals a max. -/
theorem min_charge_eq_max (raw : ℚ) :
    (if raw < 1/2 then (1/2 : ℚ) else raw) = max raw (1/2) := by
  rcases lt_or_ge raw (1/2) with h | h
  · rw [if_pos h, max_eq_right h.le]
  · rw [if_neg (not_lt.mpr h), max_eq_left h]

/-- Deposit flow at percentage 0: payment bypassed, no gateway call. -/
theorem flow_zero (st : DB) (data : PaymentRequest) (user : UserDoc)
    (tid : String) (g : Option StripeSession) (b : BusinessDoc)
    (svcs : List ServiceDoc) (lvl : String)
    (hlvl : b.depositLevel.getD "20" = lvl)
    (h0 : depositLevelsGet lvl 20 = 0) :
    ∃ tx : TransactionDoc,
      checkout_deposit_flow st data user tid g b svcs =
        ⟨{ st with payment_transactions := st.payment_transactions ++ [tx] },
          CheckoutResult.bypassed tid "No deposit required for this business"
            ((svcs.map (fun s => s.duration.getD 30)).sum), []⟩ ∧
      tx.status = "bypassed" ∧ tx.paymentStatus = "no_deposit" ∧ tx.amount = 0 := by
  simp only [checkout_deposit_flow, hlvl, h0]
  exact ⟨_, rfl, rfl, rfl, rfl⟩

/-- Deposit flow at a nonzero percentage with the gateway session
created: the pending transaction is inserted, the response is the 500
error caused by the unassigned name service_price, and the recorded
deposit is the rounded amount raised to the 0.50 minimum. -/
theorem flow_pos (st : DB) (data : PaymentRequest) (user : UserDoc)
    (tid : String) (sess : StripeSession) (b : BusinessDoc)
    (svcs : List ServiceDoc) (lvl : String) (pct : Nat)
    (hlvl : b.depositLevel.getD "20" = lvl)
    (hget : depositLevelsGet lvl 20 = pct)
    (hpos : pct ≠ 0) :
    ∃ tx : TransactionDoc,
      checkout_deposit_flow st data user tid (some sess) b svcs =
        ⟨{ st with payment_transactions := st.payment_transactions ++ [tx] },
          CheckoutResult.httpError 500
            "Failed to create payment session: name service_price is not defined",
          [⌊tx.amount * 100⌋]⟩ ∧
      tx.status = "pending" ∧ tx.paymentStatus = "initiated" ∧
      tx.sessionId = some sess.id ∧
      tx.amount =
        max (pyRound2 ((svcs.map (fun s => s.price)).sum * ((pct : ℚ) / 100))) (1/2) := by
  have hb0 : (pct == 0) = false := by
    simpa using hpos
  have hnp : ¬ "service_price" ∈ create_checkout_session_locals := by decide
  simp only [checkout_deposit_flow, hlvl, hget, hb0, Bool.false_eq_true, if_false,
    dif_neg hnp]
  rw [min_charge_eq_max]
  exact ⟨_, rfl, rfl, rfl, rfl, rfl⟩

/-- C3 amended: the deposit flow maps deposit levels none/20/50/full to
percentages 0/20/50/100; percentage 0 bypasses payment with status
bypassed, paymentStatus no_deposit and amount 0 and no gateway call;
otherwise the recorded deposit is the total price times the percentage,
rounded to two decimal places and then raised to the 0.50 minimum; for
a total price of 100.00 the pre-minimum deposits are 0, 20, 50, 100. -/
theorem deposit_levels_spec (st : DB) (data : PaymentRequest) (user : UserDoc)
    (tid : String) (sess : StripeSession) (b : BusinessDoc) (svcs : List ServiceDoc)
    (lvl : String) (pct : Nat)
    (hb : st.businesses.find? (fun x => x.id == data.businessId) = some b)
    (happ : b.approved = true)
    (hsv : fetch_services st data.serviceIds = Except.ok svcs)
    (hne : svcs.isEmpty = false)
    (hoc : data.offerCode = none)
    (hlvl : b.depositLevel = some lvl)
    (hmem : (lvl, pct) ∈ DEPOSIT_LEVELS) :
    (pct = 0 →
      ∃ tx : TransactionDoc,
        (create_checkout_session st data user tid (some sess)).db.payment_transactions =
          st.payment_transactions ++ [tx] ∧
        tx.status = "bypassed" ∧ tx.paymentStatus = "no_deposit" ∧ tx.amount = 0 ∧
        (create_checkout_session st data user tid (some sess)).gatewayUnitAmounts = []) ∧
    (pct ≠ 0 →
      ∃ tx : TransactionDoc,
        (create_checkout_session st data user tid (some sess)).db.payment_transactions =
          st.payment_transactions ++ [tx] ∧
        tx.amount =
          max (pyRound2 ((svcs.map (fun s => s.price)).sum * ((pct : ℚ) / 100))) (1/2)) ∧
    ((100 : ℚ) * ((0 : ℚ) / 100) = 0 ∧ pyRound2 ((100 : ℚ) * (20 / 100)) = 20 ∧
      pyRound2 ((100 : ℚ) * (50 / 100)) = 50 ∧ pyRound2 ((100 : ℚ) * (100 / 100)) = 100) := by
  have hfall : create_checkout_session st data user tid (some sess) =
      checkout_deposit_flow st data user tid (some sess) b svcs := by
    apply create_eq_deposit_flow st data user tid (some sess) b svcs hb happ hsv hne
    intro oc h
    rw [hoc] at h
    cases h
  have hlvl2 : b.depositLevel.getD "20" = lvl := by rw [hlvl]; rfl
  have hnum : ((100 : ℚ) * ((0 : ℚ) / 100) = 0 ∧ pyRound2 ((100 : ℚ) * (20 / 100)) = 20 ∧
      pyRound2 ((100 : ℚ) * (50 / 100)) = 50 ∧ pyRound2 ((100 : ℚ) * (100 / 100)) = 100) := by
    refine ⟨by norm_num, ?_, ?_, ?_⟩ <;> norm_num [pyRound2, roundHalfEven]
  refine ⟨?_, ?_, hnum⟩
  · intro hp0
    have hget : depositLevelsGet lvl 20 = 0 := by
      simp only [DEPOSIT_LEVELS, List.mem_cons, List.not_mem_nil, or_false,
        Prod.mk.injEq] at hmem
      subst hp0
      rcases hmem with ⟨h1, h2⟩ | ⟨h1, h2⟩ | ⟨h1, h2⟩ | ⟨h1, h2⟩ <;> subst h1 <;>
        first
        | rfl
        | exact absurd h2.symm (by decide)
    obtain ⟨tx, heq, h1, h2, h3⟩ := flow_zero st data user tid (some sess) b svcs lvl hlvl2 hget
    rw [hfall, heq]
    exact ⟨tx, rfl, h1, h2, h3, rfl⟩
  · intro hp
    have hget : depositLevelsGet lvl 20 = pct := by
      simp only [DEPOSIT_LEVELS, List.mem_cons, List.not_mem_nil, or_false,
        Prod.mk.injEq] at hmem
      rcases hmem with ⟨h1, h2⟩ | ⟨h1, h2⟩ | ⟨h1, h2⟩ | ⟨h1, h2⟩ <;> subst h1 <;> subst h2 <;> rfl
    obtain ⟨tx, heq, _, _, _, ham⟩ :=
      flow_pos st data user tid sess b svcs lvl pct hlvl2 hget hp
    rw [hfall, heq]
    exact ⟨tx, rfl, ham⟩

/-! ### Concrete checkout fixtures -/

def mkBiz (lvl : Option String) : BusinessDoc :=
  { id := "b1", ownerId := "o1", businessName := "Shop", approved := true,
    depositLevel := lvl, stripeConnectOnboarded := false,
    stripeConnectAccountId := none, referralCode := none, referredBy := none,
    referralBonusPaid := false, referralCredits := 0, isCenturion := false }

def mkSvc (p : ℚ) : ServiceDoc :=
  { id := "s1", businessId := "b1", name := "Cut", price := p, duration := some 30 }

def mkDB (lvl : Option String) (p : ℚ) : DB :=
  { users := [], businesses := [mkBiz lvl], services := [mkSvc p], staff := [],
    subscriptions := [], payment_transactions := [], appointments := [],
    availability := [], notifications := [], billing_history := [] }

def mkReq (oc : Option String) : PaymentRequest :=
  { serviceIds := ["s1"], businessId := "b1", staffId := none,
    date := "2026-01-01", time := "10:00", originUrl := "http://x", offerCode := oc }

def theUser : UserDoc :=
  { id := "u1", email := "u@x.com", fullName := "U", role := "customer" }

def theSession : StripeSession := { id := "sess1", url := "http://stripe" }

/-- Witness for C3 at deposit level 50 and a single service priced 100. -/
theorem deposit_levels_spec_witness :
    ∃ tx : TransactionDoc,
      (create_checkout_session (mkDB (some "50") 100) (mkReq none) theUser "t1"
          (some theSession)).db.payment_transactions =
        (mkDB (some "50") 100).payment_transactions ++ [tx] ∧
      tx.amount =
        max (pyRound2 (([mkSvc 100].map (fun s => s.price)).sum * (((50 : Nat) : ℚ) / 100)))
          (1/2) := by
  have h := deposit_levels_spec (mkDB (some "50") 100) (mkReq none) theUser "t1"
    theSession (mkBiz (some "50")) [mkSvc 100] "50" 50 rfl rfl rfl rfl rfl rfl (by decide)
  exact h.2.1 (by decide)

/-- C3 counterexample: for a single service priced 99.99 at deposit
level 20, the recorded deposit is 20.00 (the code rounds 19.998 to two
decimal places before the minimum-charge step), while the claimed
formula totalServicePrice * percentage / 100 gives 19.998, also after
flooring at the configured minimum. -/
theorem deposit_formula_counterexample :
    ((create_checkout_session (mkDB (some "20") (99.99 : ℚ)) (mkReq none) theUser "t1"
        (some theSession)).db.payment_transactions.map (fun t => t.amount)) = [20] ∧
    ¬ ((99.99 : ℚ) * 20 / 100 = 20) ∧
    ¬ (max ((99.99 : ℚ) * 20 / 100) (1/2) = 20) := by
  refine ⟨?_, by norm_num, by rw [max_eq_left (by norm_num)]; norm_num⟩
  have hfall := create_eq_deposit_flow (mkDB (some "20") (99.99 : ℚ)) (mkReq none)
    theUser "t1" (some theSession) (mkBiz (some "20")) [mkSvc (99.99 : ℚ)]
    rfl rfl rfl rfl (fun oc h => by cases h)
  obtain ⟨tx, heq, _, _, _, ham⟩ := flow_pos (mkDB (some "20") (99.99 : ℚ)) (mkReq none)
    theUser "t1" theSession (mkBiz (some "20")) [mkSvc (99.99 : ℚ)] "20" 20 rfl rfl
    (by decide)
  have ham20 : tx.amount = 20 := by
    rw [ham]
    rw [show ([mkSvc (99.99 : ℚ)].map (fun s => s.price)).sum = (99.99 : ℚ) by
      simp [mkSvc]]
    rw [show pyRound2 ((99.99 : ℚ) * (((20 : Nat) : ℚ) / 100)) = 20 by
      norm_num [pyRound2, roundHalfEven]]
    rw [max_eq_left (by norm_num)]
  rw [hfall, heq]
  simp [ham20, mkDB]

/-- C5: a supplied offer code that upper-cases and strips into the fixed
allow-list creates the transaction directly in status bypassed with
amount 0 and no gateway call; a supplied code not in the allow-list is
treated exactly as an absent code (the request falls through to the
normal deposit flow), not as an error. -/
theorem offer_code_spec (st : DB) (data : PaymentRequest) (user : UserDoc)
    (tid : String) (g : Option StripeSession) (b : BusinessDoc)
    (svcs : List ServiceDoc) (oc : String)
    (hb : st.businesses.find? (fun x => x.id == data.businessId) = some b)
    (happ : b.approved = true)
    (hsv : fetch_services st data.serviceIds = Except.ok svcs)
    (hne : svcs.isEmpty = false)
    (hoc : data.offerCode = some oc) :
    (pyStrip (pyUpper oc) ∈ VALID_OFFER_CODES →
      ∃ tx : TransactionDoc,
        (create_checkout_session st data user tid g).db.payment_transactions =
          st.payment_transactions ++ [tx] ∧
        tx.status = "bypassed" ∧ tx.paymentStatus = "bypassed" ∧ tx.amount = 0 ∧
        tx.offerCode = some (pyStrip (pyUpper oc)) ∧
        (create_checkout_session st data user tid g).gatewayUnitAmounts = [] ∧
        (create_checkout_session st data user tid g).result =
          CheckoutResult.bypassed tid "Payment bypassed with offer code"
            ((svcs.map (fun s => s.duration.getD 30)).sum)) ∧
    (pyStrip (pyUpper oc) ∉ VALID_OFFER_CODES →
      create_checkout_session st data user tid g =
        create_checkout_session st { data with offerCode := none } user tid g) := by
  constructor
  · intro hmem
    have hocne : (oc == "") = false := by
      cases h0 : oc == "" with
      | true =>
        have : oc = "" := by simpa using h0
        subst this
        exact absurd hmem (by decide)
      | false => rfl
    have hcont : (VALID_OFFER_CODES.contains (pyStrip (pyUpper oc))) = true := by
      simpa using hmem
    unfold create_checkout_session
    rw [hb, hsv]
    simp only [happ, Bool.not_true, Bool.false_eq_true, if_false, hne, hoc, hocne,
      hcont, if_true]
    exact ⟨_, rfl, rfl, rfl, rfl, rfl, trivial, trivial⟩
  · intro hnot
    rw [create_eq_deposit_flow st data user tid g b svcs hb happ hsv hne
      (fun oc' h' => by
        rw [hoc] at h'
        injection h' with h''
        subst h''
        exact Or.inr hnot)]
    rw [create_eq_deposit_flow st { data with offerCode := none } user tid g b svcs
      hb happ hsv hne (fun oc' h' => by cases h')]
    rfl

/-- Witness for C5 with the code " testfree " (strips and upper-cases
into TESTFREE) on part one, and the code "NOPE" on part two. -/
theorem offer_code_spec_witness :
    (∃ tx : TransactionDoc,
      (create_checkout_session (mkDB (some "20") 100) (mkReq (some " testfree "))
          theUser "t1" (some theSession)).db.payment_transactions =
        (mkDB (some "20") 100).payment_transactions ++ [tx] ∧
      tx.status = "bypassed" ∧ tx.paymentStatus = "bypassed" ∧ tx.amount = 0 ∧
      tx.offerCode = some (pyStrip (pyUpper " testfree ")) ∧
      (create_checkout_session (mkDB (some "20") 100) (mkReq (some " testfree "))
          theUser "t1" (some theSession)).gatewayUnitAmounts = [] ∧
      (create_checkout_session (mkDB (some "20") 100) (mkReq (some " testfree "))
          theUser "t1" (some theSession)).result =
        CheckoutResult.bypassed "t1" "Payment bypassed with offer code"
          (([mkSvc 100].map (fun s => s.duration.getD 30)).sum)) ∧
    create_checkout_session (mkDB (some "20") 100) (mkReq (some "NOPE")) theUser "t1"
        (some theSession) =
      create_checkout_session (mkDB (some "20") 100)
        { mkReq (some "NOPE") with offerCode := none } theUser "t1" (some theSession) := by
  constructor
  · exact (offer_code_spec (mkDB (some "20") 100) (mkReq (some " testfree ")) theUser
      "t1" (some theSession) (mkBiz (some "20")) [mkSvc 100] " testfree "
      rfl rfl rfl rfl rfl).1 (by decide)
  · exact (offer_code_spec (mkDB (some "20") 100) (mkReq (some "NOPE")) theUser
      "t1" (some theSession) (mkBiz (some "20")) [mkSvc 100] "NOPE"
      rfl rfl rfl rfl rfl).2 (by decide)

/-- C10: on the non-bypass payment path with the gateway session
created, create_checkout_session never reaches the success return: the
response expression reads the unassigned name service_price, so the
caller receives HTTP 500 even though the gateway was called and the
pending transaction was already recorded. -/
theorem checkout_success_unreachable (st : DB) (data : PaymentRequest) (user : UserDoc)
    (tid : String) (sess : StripeSession) (b : BusinessDoc) (svcs : List ServiceDoc)
    (lvl : String) (pct : Nat)
    (hb : st.businesses.find? (fun x => x.id == data.businessId) = some b)
    (happ : b.approved = true)
    (hsv : fetch_services st data.serviceIds = Except.ok svcs)
    (hne : svcs.isEmpty = false)
    (hoc : ∀ oc, data.offerCode = some oc →
      oc = "" ∨ pyStrip (pyUpper oc) ∉ VALID_OFFER_CODES)
    (hlvl : b.depositLevel.getD "20" = lvl)
    (hget : depositLevelsGet lvl 20 = pct)
    (hpos : pct ≠ 0) :
    "service_price" ∉ create_checkout_session_locals ∧
    (create_checkout_session st data user tid (some sess)).result =
      CheckoutResult.httpError 500
        "Failed to create payment session: name service_price is not defined" ∧
    (∃ tx : TransactionDoc,
      (create_checkout_session st data user tid (some sess)).db.payment_transactions =
        st.payment_transactions ++ [tx] ∧
      tx.status = "pending" ∧ tx.sessionId = some sess.id) ∧
    (create_checkout_session st data user tid (some sess)).gatewayUnitAmounts ≠ [] := by
  have hfall := create_eq_deposit_flow st data user tid (some sess) b svcs
    hb happ hsv hne hoc
  obtain ⟨tx, heq, hst, hps, hsid, ham⟩ :=
    flow_pos st data user tid sess b svcs lvl pct hlvl hget hpos
  refine ⟨by decide, ?_, ⟨tx, ?_, hst, hsid⟩, ?_⟩ <;> rw [hfall, heq] <;> simp

/-- Witness for C10 at deposit level full with a service priced 80. -/
theorem checkout_success_unreachable_witness :
    "service_price" ∉ create_checkout_session_locals ∧
    (create_checkout_session (mkDB (some "full") 80) (mkReq none) theUser "t1"
        (some theSession)).result =
      CheckoutResult.httpError 500
        "Failed to create payment session: name service_price is not defined" ∧
    (∃ tx : TransactionDoc,
      (create_checkout_session (mkDB (some "full") 80) (mkReq none) theUser "t1"
          (some theSession)).db.payment_transactions =
        (mkDB (some "full") 80).payment_transactions ++ [tx] ∧
      tx.status = "pending" ∧ tx.sessionId = some theSession.id) ∧
    (create_checkout_session (mkDB (some "full") 80) (mkReq none) theUser "t1"
        (some theSession)).gatewayUnitAmounts ≠ [] :=
  checkout_success_unreachable (mkDB (some "full") 80) (mkReq none) theUser "t1"
    theSession (mkBiz (some "full")) [mkSvc 80] "full" 100
    rfl rfl rfl rfl (fun oc h => by cases h) rfl rfl (by decide)

/-! ## Booking completion (server.py lines 2888-3051) -/

/-- Decimal digit run to a number; none when empty or non-digits. -/
def digitsToNat (cs : List Char) : Option Nat :=
  if cs.isEmpty then none
  else if cs.all Char.isDigit then
    some (cs.foldl (fun acc c => 10 * acc + (c.toNat - 48)) 0)
  else none

/-- Python int(str): strip whitespace, optional sign, decimal digits;
none models the ValueError raise. -/
def pyParseInt (s : String) : Option Int :=
  let t := ((s.data.dropWhile Char.isWhitespace).reverse.dropWhile
    Char.isWhitespace).reverse
  match t with
  | [] => none
  | c :: rest =>
    if c == '-' then (digitsToNat rest).map (fun n => -(n : Int))
    else if c == '+' then (digitsToNat rest).map (fun n => (n : Int))
    else (digitsToNat t).map (fun n => (n : Int))

/-- Python str.split on a single separator character. -/
def splitChar (sep : Char) : List Char → List (List Char)
  | [] => [[]]
  | c :: rest =>
    match splitChar sep rest with
    | [] => [[c]]
    | g :: gs => if c == sep then [] :: g :: gs else (c :: g) :: gs

def pySplitColon (s : String) : List String :=
  (splitChar ':' s.data).map String.mk

/-- start_hour, start_min = map(int, start_time.split(":")), turned into
minutes since midnight; none models any exception in unpacking or int
conversion (caught by the bare except of the source). -/
def parse_time_minutes (s : String) : Option Int :=
  match (pySplitColon s).map pyParseInt with
  | [some h, some m] => some (h * 60 + m)
  | _ => none

/-- Python f-string 02d formatting. -/
def pad2 (n : Int) : String :=
  if 0 ≤ n ∧ n < 10 then "0" ++ toString n else toString n

/-- One slot label: hour = minutes // 60 and minute = minutes % 60
(Python floor division and sign-of-divisor modulo), 02d-padded. -/
def slotLabel (minutes : Int) : String :=
  pad2 (minutes.fdiv 60) ++ ":" ++ pad2 (minutes.fmod 60)

/-- The while loop of the slot blocker: emit a label and advance 30
minutes while strictly before the end time. -/
def slotLoop (current endM : Int) : List String :=
  if h : current < endM then slotLabel current :: slotLoop (current + 30) endM
  else []
termination_by (endM - current).toNat
decreasing_by
  omega

/-- The slots removed for a booking starting at start_time and lasting
total_duration minutes; on a parse failure the fallback removes exactly
the start-time slot. -/
def slots_to_remove (start_time : String) (total_duration : Int) : List String :=
  match parse_time_minutes start_time with
  | some start => slotLoop start (start + total_duration)
  | none => [start_time]

/-- Mongo $pull of one value from the slots array of one document. -/
def pullSlot (slot : String) (a : AvailabilityDoc) : AvailabilityDoc :=
  { a with slots := a.slots.filter (fun s => !(s == slot)) }

/-- The availability query for the booking: businessId and date always,
staffId only when the transaction has a truthy staffId. -/
def availMatches (businessId date : String) (staffId : Option String)
    (a : AvailabilityDoc) : Bool :=
  a.businessId == businessId && a.date == date &&
    (match staffId with
     | some s => a.staffId == some s
     | none => true)

/-- The removal loop: one update_one with a $pull per slot label. -/
def remove_slots (avails : List AvailabilityDoc) (businessId date : String)
    (staffId : Option String) (slots : List String) : List AvailabilityDoc :=
  slots.foldl
    (fun acc slot => updateFirst (availMatches businessId date staffId) (pullSlot slot) acc)
    avails

inductive TxQuery where
  | byTransaction (id : String)
  | bySession (sid : String)
deriving DecidableEq, Repr

/-- query = {"id": transaction_id} if transaction_id else
{"sessionId": session_id}. -/
def findTransaction (st : DB) : TxQuery → Option TransactionDoc
  | TxQuery.byTransaction tid => st.payment_transactions.find? (fun t => t.id == tid)
  | TxQuery.bySession sid =>
    st.payment_transactions.find? (fun t => t.sessionId == some sid)

inductive BookingResult where
  | httpError (status : Nat) (detail : String)
  | existing (appointment : AppointmentDoc)
  | created (appointment : AppointmentDoc)
deriving DecidableEq, Repr

/-- The duration accumulation quirk of the service loop: the duration of
a found service is added only while the running total is still 0. -/
def accumulate_duration (initial : Int) (svcs : List ServiceDoc) : Int :=
  svcs.foldl (fun td s => if td == 0 then td + s.duration.getD 30 else td) initial

/-- complete_booking_after_payment: find the transaction, return the
existing appointment when one already references it, verify bypassed or
paid, resolve services, business and staff, create the appointment and
the in-app notification, and remove the consumed availability slots.
The email/SMS dispatch is external I/O and is not part of the state.
new_appointment_id and new_notification_id model the generated uuids. -/
def complete_booking_after_payment (st : DB) (q : TxQuery) (user : UserDoc)
    (new_appointment_id new_notification_id : String) : DB × BookingResult :=
  match findTransaction st q with
  | none => (st, BookingResult.httpError 404 "Transaction not found")
  | some transaction =>
    match st.appointments.find? (fun a => a.transactionId == transaction.id) with
    | some existing_booking => (st, BookingResult.existing existing_booking)
    | none =>
      let is_bypassed := transaction.status == "bypassed"
      let is_paid := transaction.paymentStatus == "paid" ||
        transaction.paymentStatus == "completed"
      if !is_bypassed && !is_paid then
        (st, BookingResult.httpError 400 "Payment not completed")
      else
        let service_ids := transaction.serviceIds
        let services := service_ids.filterMap
          (fun sid => st.services.find? (fun s => s.id == sid))
        let service_names := services.map (fun s => s.name)
        let total_price : ℚ := (services.map (fun s => s.price)).sum
        let total_duration := accumulate_duration transaction.totalDuration services
        match st.businesses.find? (fun b => b.id == transaction.businessId) with
        | none => (st, BookingResult.httpError 404 "Services or business not found")
        | some business =>
          if services.isEmpty then
            (st, BookingResult.httpError 404 "Services or business not found")
          else
            let staff_name :=
              if truthy transaction.staffId then
                match st.staff.find? (fun sm =>
                    sm.id == transaction.staffId.getD "" &&
                    sm.businessId == business.id) with
                | some sm => some sm.name
                | none => none
              else none
            let appointment_doc : AppointmentDoc :=
              { id := new_appointment_id, transactionId := transaction.id,
                userId := user.id, businessId := business.id,
                serviceIds := service_ids, serviceId := service_ids.headD "",
                serviceName := String.intercalate ", " service_names,
                staffId := transaction.staffId, staffName := staff_name,
                date := transaction.date, time := transaction.time,
                duration := total_duration, status := "pending",
                paymentStatus := if !is_bypassed then "deposit_paid" else "bypassed",
                paymentAmount := total_price, depositAmount := transaction.amount,
                depositPaid := !is_bypassed, offerCodeUsed := transaction.offerCode,
                depositRefunded := false, refundAmount := none }
            let notification_doc : NotificationDoc :=
              { id := new_notification_id, userId := business.ownerId,
                type := "new_booking", title := "New Booking Request", read := false }
            let slots := slots_to_remove transaction.time total_duration
            let qStaff := if truthy transaction.staffId then transaction.staffId else none
            let st3 :=
              { st with
                appointments := st.appointments ++ [appointment_doc],
                notifications := st.notifications ++ [notification_doc],
                availability :=
                  remove_slots st.availability business.id transaction.date qStaff slots }
            (st3, BookingResult.created appointment_doc)

/-- Closed form of the slot loop: one label per started 30-minute step
from the start up to, but excluding, the end. -/
theorem slotLoop_closed : ∀ (D : ℕ) (start : Int),
    slotLoop start (start + D) =
      (List.range ((D + 29) / 30)).map
        (fun (i : ℕ) => slotLabel (start + 30 * (i : Int))) := by
  intro D
  induction D using Nat.strong_induction_on with
  | _ D ih =>
    intro start
    rcases Nat.eq_zero_or_pos D with h0 | hpos
    · subst h0
      rw [slotLoop]
      simp
    · rw [slotLoop]
      have hlt : start < start + (D : Int) := by omega
      rw [dif_pos hlt]
      rcases le_or_lt D 30 with hle | hgt
      · have hstop : ¬ (start + 30 < start + (D : Int)) := by omega
        rw [slotLoop, dif_neg hstop]
        have hdiv : (D + 29) / 30 = 1 := by omega
        rw [hdiv, show List.range 1 = [0] from rfl]
        simp
      · have heq : start + (D : Int) = (start + 30) + ((D - 30 : ℕ) : Int) := by omega
        rw [heq, ih (D - 30) (by omega) (start + 30)]
        have hdiv : (D + 29) / 30 = ((D - 30) + 29) / 30 + 1 := by omega
        rw [hdiv, List.range_succ_eq_map]
        simp only [List.map_cons, List.map_map, Nat.cast_zero, mul_zero, add_zero]
        have hfun : ((fun (i : ℕ) => slotLabel (start + 30 * (i : Int))) ∘ Nat.succ) =
            (fun (i : ℕ) => slotLabel (start + 30 + 30 * (i : Int))) := by
          funext i
          simp only [Function.comp_apply]
          congr 1
          push_cast
          ring
        rw [hfun]

/-- The query predicate ignores the slots field. -/
theorem availMatches_pullSlot (bid d : String) (stq : Option String) (s : String)
    (a : AvailabilityDoc) :
    availMatches bid d stq (pullSlot s a) = availMatches bid d stq a := rfl

theorem updateFirst_id {α : Type} (p : α → Bool) (l : List α) :
    updateFirst p (fun a => a) l = l := by
  induction l with
  | nil => rfl
  | cons x xs ih =>
    cases hpx : p x with
    | true => simp [updateFirst, hpx]
    | false => simp [updateFirst, hpx, ih]

theorem updateFirst_updateFirst {α : Type} (p : α → Bool) (f g : α → α)
    (hg : ∀ a, p (g a) = p a) (l : List α) :
    updateFirst p f (updateFirst p g l) = updateFirst p (fun a => f (g a)) l := by
  induction l with
  | nil => rfl
  | cons x xs ih =>
    cases hpx : p x with
    | true => simp [updateFirst, hpx, hg x]
    | false => simp [updateFirst, hpx, ih]

/-- The effect on the slots of the matched document after the whole
removal loop. -/
def removeAll (L : List String) (sl : List String) : List String :=
  L.foldl (fun sl s => sl.filter (fun x => !(x == s))) sl

theorem remove_slots_updateFirst (bid d : String) (stq : Option String) :
    ∀ (L : List String) (A : List AvailabilityDoc),
    remove_slots A bid d stq L =
      updateFirst (availMatches bid d stq)
        (fun a => { a with slots := removeAll L a.slots }) A := by
  intro L
  induction L with
  | nil =>
    intro A
    show A = updateFirst _ (fun a => { a with slots := a.slots }) A
    rw [show (fun (a : AvailabilityDoc) => { a with slots := a.slots }) =
      (fun a => a) from funext (fun a => rfl), updateFirst_id]
  | cons s L' ih =>
    intro A
    show remove_slots (updateFirst _ (pullSlot s) A) bid d stq L' = _
    rw [ih]
    rw [updateFirst_updateFirst _ _ (pullSlot s) (availMatches_pullSlot bid d stq s) A]
    rfl

theorem removeAll_filter : ∀ (L : List String) (sl : List String),
    removeAll L sl = sl.filter (fun x => !(L.contains x)) := by
  intro L
  induction L with
  | nil =>
    intro sl
    show sl = sl.filter _
    symm
    rw [List.filter_eq_self]
    intro a _
    rfl
  | cons s L' ih =>
    intro sl
    show removeAll L' (sl.filter (fun x => !(x == s))) = _
    rw [ih, List.filter_filter]
    congr 1
    funext x
    rw [List.contains_cons, Bool.not_or, Bool.and_comm]

theorem removeAll_idem (L : List String) (sl : List String) :
    removeAll L (removeAll L sl) = removeAll L sl := by
  rw [removeAll_filter, removeAll_filter, List.filter_filter]
  congr 1
  funext x
  cases hx : L.contains x <;> simp [hx]

/-- C4: for a booking starting at time t with total duration D, the
removed slot labels are exactly those obtained by parsing t into
minutes since midnight s and emitting one 02d-padded label per
30-minute step from s up to, but excluding, s + D; when parsing fails
exactly the start-time label is removed; pulling a label that is not in
an availability document leaves it unchanged, and the whole removal is
idempotent under retry. -/
theorem slot_consumption_spec (t : String) (s : Int) (D : ℕ)
    (A : List AvailabilityDoc) (bid d : String) (stq : Option String)
    (L : List String) (a : AvailabilityDoc) (slot : String) :
    (parse_time_minutes t = some s →
      slots_to_remove t (D : Int) =
        (List.range ((D + 29) / 30)).map
          (fun (i : ℕ) => slotLabel (s + 30 * (i : Int)))) ∧
    (parse_time_minutes t = none → slots_to_remove t (D : Int) = [t]) ∧
    (a.slots.contains slot = false → pullSlot slot a = a) ∧
    remove_slots (remove_slots A bid d stq L) bid d stq L =
      remove_slots A bid d stq L := by
  refine ⟨?_, ?_, ?_, ?_⟩
  · intro hp
    unfold slots_to_remove
    rw [hp]
    exact slotLoop_closed D s
  · intro hp
    unfold slots_to_remove
    rw [hp]
  · intro habs
    unfold pullSlot
    rw [List.filter_eq_self.mpr]
    intro x hx
    cases hxs : x == slot with
    | true =>
      have hxe : x = slot := by simpa using hxs
      subst hxe
      have hc : a.slots.contains x = true := by simpa using hx
      rw [hc] at habs
      cases habs
    | false => rfl
  · rw [remove_slots_updateFirst, remove_slots_updateFirst,
      updateFirst_updateFirst (availMatches bid d stq)
        (fun a' => { a' with slots := removeAll L a'.slots })
        (fun a' => { a' with slots := removeAll L a'.slots })
        (fun a' => rfl) A]
    congr 1
    funext x
    show ({ x with slots := removeAll L (removeAll L x.slots) } : AvailabilityDoc) = _
    rw [removeAll_idem]

def availFix : AvailabilityDoc :=
  { businessId := "b1", date := "2026-01-01", staffId := none,
    slots := ["10:00", "10:30", "11:00"] }

/-- Witness for C4: a 75-minute booking at 10:00 consumes three slots;
an unparsable time falls back to itself; pulling the absent label 09:00
is a no-op; the removal is idempotent on a concrete document. -/
theorem slot_consumption_spec_witness :
    slots_to_remove "10:00" ((75 : ℕ) : Int) =
      (List.range (((75 : ℕ) + 29) / 30)).map
        (fun (i : ℕ) => slotLabel (600 + 30 * (i : Int))) ∧
    slots_to_remove "oops" ((75 : ℕ) : Int) = ["oops"] ∧
    pullSlot "09:00" availFix = availFix ∧
    remove_slots (remove_slots [availFix] "b1" "2026-01-01" none ["10:00", "10:30"])
        "b1" "2026-01-01" none ["10:00", "10:30"] =
      remove_slots [availFix] "b1" "2026-01-01" none ["10:00", "10:30"] := by
  refine ⟨?_, ?_, ?_, ?_⟩
  · exact (slot_consumption_spec "10:00" 600 75 [] "" "" none [] availFix "").1 (by decide)
  · exact (slot_consumption_spec "oops" 0 75 [] "" "" none [] availFix "").2.1 (by decide)
  · exact (slot_consumption_spec "x" 0 0 [] "" "" none [] availFix "09:00").2.2.1
      (by decide)
  · exact (slot_consumption_spec "x" 0 0 [availFix] "b1" "2026-01-01" none
      ["10:00", "10:30"] availFix "").2.2.2

theorem find?_append_none {α : Type} (p : α → Bool) (l₁ l₂ : List α)
    (h : l₁.find? p = none) : (l₁ ++ l₂).find? p = l₂.find? p := by
  induction l₁ with
  | nil => rfl
  | cons x xs ih =>
    cases hpx : p x with
    | true => simp [List.find?_cons, hpx] at h
    | false =>
      simp only [List.find?_cons, hpx] at h
      rw [show x :: xs ++ l₂ = x :: (xs ++ l₂) from rfl]
      simp only [List.find?_cons, hpx]
      exact ih h

/-- C1: completing a booking is idempotent in the transaction: when an
appointment already references the transaction id, the call returns
that appointment and leaves the state unchanged; and after a call that
created an appointment for a transaction that had none, a second call
returns the same appointment id, changes nothing, and exactly one
appointment references the transaction. -/
theorem complete_booking_idempotent (st : DB) (u : UserDoc)
    (tid n1 nn1 n2 nn2 : String) :
    (∀ tx a, findTransaction st (TxQuery.byTransaction tid) = some tx →
      st.appointments.find? (fun x => x.transactionId == tx.id) = some a →
      complete_booking_after_payment st (TxQuery.byTransaction tid) u n1 nn1 =
        (st, BookingResult.existing a)) ∧
    (∀ st1 A, st.appointments.countP (fun x => x.transactionId == tid) = 0 →
      complete_booking_after_payment st (TxQuery.byTransaction tid) u n1 nn1 =
        (st1, BookingResult.created A) →
      complete_booking_after_payment st1 (TxQuery.byTransaction tid) u n2 nn2 =
        (st1, BookingResult.existing A) ∧
      A.transactionId = tid ∧
      st1.appointments.countP (fun x => x.transactionId == tid) = 1) := by
  constructor
  · intro tx a htx ha
    unfold complete_booking_after_payment
    simp only [htx, ha]
  · intro st1 A hcount hres
    cases htx : findTransaction st (TxQuery.byTransaction tid) with
    | none =>
      unfold complete_booking_after_payment at hres
      simp only [htx] at hres
      simp at hres
    | some tx =>
      have htid : tx.id = tid := by
        have hp := List.find?_some htx
        simpa using hp
      unfold complete_booking_after_payment at hres
      simp only [htx] at hres
      cases hex : st.appointments.find? (fun x => x.transactionId == tx.id) with
      | some a0 =>
        simp only [hex] at hres
        simp at hres
      | none =>
        simp only [hex] at hres
        split at hres
        · simp at hres
        · split at hres
          · simp at hres
          · split at hres
            · simp at hres
            · rw [Prod.mk.injEq] at hres
              obtain ⟨hst1, hcreated⟩ := hres
              have hA : A = _ := (BookingResult.created.injEq _ _).mp hcreated.symm
              have hAtid : A.transactionId = tid := by rw [hA]; exact htid
              have hpt : st1.payment_transactions = st.payment_transactions := by
                rw [← hst1]
              have happ : st1.appointments = st.appointments ++ [A] := by
                rw [← hst1, hA]
              have hfound : st.appointments.find? (fun x => x.transactionId == tid) =
                  none := by
                rw [List.find?_eq_none]
                intro x hx
                have := (List.countP_eq_zero.mp hcount) x hx
                simpa using this
              refine ⟨?_, hAtid, ?_⟩
              · unfold complete_booking_after_payment
                have htx1 : findTransaction st1 (TxQuery.byTransaction tid) = some tx := by
                  unfold findTransaction at htx ⊢
                  rw [hpt]
                  exact htx
                have hex1 : st1.appointments.find?
                    (fun x => x.transactionId == tx.id) = some A := by
                  rw [happ, htid]
                  rw [find?_append_none _ _ _ hfound]
                  rw [List.find?_cons]
                  have hbeq : (A.transactionId == tid) = true := by
                    rw [hAtid]
                    simp
                  rw [hbeq]
                simp only [htx1, hex1]
              · rw [happ, List.countP_append]
                rw [hcount]
                have : (A.transactionId == tid) = true := by
                  rw [hAtid]
                  simp
                simp [List.countP_cons, this]

def txC1 : TransactionDoc :=
  { id := "t1", userId := "u1", serviceIds := ["s1"], serviceId := "s1",
    businessId := "b1", staffId := none, date := "2026-01-01", time := "10:00",
    totalDuration := 30, amount := 0, fullPrice := 50, currency := "gbp",
    status := "bypassed", paymentStatus := "bypassed", offerCode := some "TESTFREE",
    sessionId := none, refundAmount := none }

def dbFresh : DB :=
  { users := [], businesses := [mkBiz (some "20")], services := [mkSvc 50], staff := [],
    subscriptions := [], payment_transactions := [txC1], appointments := [],
    availability := [], notifications := [], billing_history := [] }

def apptC1 : AppointmentDoc :=
  { id := "a1", transactionId := "t1", userId := "u1", businessId := "b1",
    serviceIds := ["s1"], serviceId := "s1",
    serviceName := String.intercalate ", " ["Cut"], staffId := none, staffName := none,
    date := "2026-01-01", time := "10:00", duration := 30, status := "pending",
    paymentStatus := "bypassed", paymentAmount := 50, depositAmount := 0,
    depositPaid := false, offerCodeUsed := some "TESTFREE", depositRefunded := false,
    refundAmount := none }

def notifC1 : NotificationDoc :=
  { id := "nt1", userId := "o1", type := "new_booking",
    title := "New Booking Request", read := false }

def st1C1 : DB :=
  { dbFresh with appointments := [apptC1], notifications := [notifC1] }

def apptExist : AppointmentDoc := { apptC1 with id := "a0" }

def dbExist : DB := { dbFresh with appointments := [apptExist] }

theorem complete_booking_fresh_eval :
    complete_booking_after_payment dbFresh (TxQuery.byTransaction "t1") theUser
      "a1" "nt1" = (st1C1, BookingResult.created apptC1) := by
  simp [complete_booking_after_payment, findTransaction, dbFresh, txC1, mkBiz, mkSvc,
    theUser, truthy, accumulate_duration, st1C1, apptC1, notifC1, slots_to_remove,
    parse_time_minutes, pySplitColon, splitChar, pyParseInt, digitsToNat, slotLoop,
    remove_slots, updateFirst]

/-- Witness for C1: with an appointment already present for transaction
t1 the call returns it unchanged; and starting from a state with no
appointment for t1, the second call after a creating call returns the
created appointment and exactly one appointment references t1. -/
theorem complete_booking_idempotent_witness :
    (complete_booking_after_payment dbExist (TxQuery.byTransaction "t1") theUser
        "a1" "nt1" = (dbExist, BookingResult.existing apptExist)) ∧
    (complete_booking_after_payment st1C1 (TxQuery.byTransaction "t1") theUser
        "a2" "nt2" = (st1C1, BookingResult.existing apptC1) ∧
      apptC1.transactionId = "t1" ∧
      st1C1.appointments.countP (fun x => x.transactionId == "t1") = 1) := by
  constructor
  · exact (complete_booking_idempotent dbExist theUser "t1" "a1" "nt1" "a2" "nt2").1
      txC1 apptExist rfl rfl
  · exact (complete_booking_idempotent dbFresh theUser "t1" "a1" "nt1" "a2" "nt2").2
      st1C1 apptC1 rfl complete_booking_fresh_eval

/-! ## Subscription billing webhook (server.py lines 1825-1990) -/

inductive SubEvent where
  | checkoutSessionCompleted (subscription_id : Option String)
      (subscription customer : Option String)
  | invoiceCreated (customer : Option String) (invoice_id : Option String)
      (amount_due : Int) (subscription : Option String)
  | invoicePaymentSucceeded (customer : Option String)
  | invoicePaymentFailed (customer : Option String)
  | customerSubscriptionDeleted (id : Option String)
  | otherEvent
deriving DecidableEq, Repr

/-- update_one on the subscriptions collection. -/
def updateSubs (st : DB) (p : SubscriptionDoc → Bool)
    (f : SubscriptionDoc → SubscriptionDoc) : DB :=
  { st with subscriptions := updateFirst p f st.subscriptions }

/-- update_one on the businesses collection. -/
def updateBiz (st : DB) (p : BusinessDoc → Bool)
    (f : BusinessDoc → BusinessDoc) : DB :=
  { st with businesses := updateFirst p f st.businesses }

/-- The referral award on a first successful payment, as inlined in the
invoice.payment_succeeded branch (server.py lines 1946-1959): only when
the business has a truthy referredBy and referralBonusPaid is not yet
set; 2 credits for a Centurion referrer, else 1; then the flag is set. -/
def award_on_first_payment (st : DB) (businessId : String) : DB :=
  match st.businesses.find? (fun b => b.id == businessId) with
  | none => st
  | some business =>
    if truthy business.referredBy && !business.referralBonusPaid then
      match st.businesses.find? (fun rb => rb.referralCode == business.referredBy) with
      | none => st
      | some referring =>
        let credits : Int := if referring.isCenturion then 2 else 1
        let st1 := updateBiz st (fun b => b.id == referring.id)
          (fun b => { b with referralCredits := b.referralCredits + credits })
        updateBiz st1 (fun b => b.id == business.id)
          (fun b => { b with referralBonusPaid := true })
    else st

/-- Local names assigned in subscription_webhook before server.py line
1858 on the checkout.session.completed path. The name sub is not among
them, so reading sub on line 1858 raises UnboundLocalError and the
surrounding try/except returns {"status": "error"}. -/
def subscription_webhook_checkout_locals : List String :=
  ["request", "body", "sig_header", "json", "event", "event_type", "data",
   "metadata", "subscription_id"]

/-- subscription_webhook: voidOk models whether
stripe.Invoice.void_invoice succeeds, new_billing_id the generated uuid
of the billing-history record. -/
def subscription_webhook (st : DB) (ev : SubEvent) (voidOk : Bool)
    (new_billing_id : String) : DB × String :=
  match ev with
  | SubEvent.checkoutSessionCompleted subscription_id stripeSub stripeCustomer =>
    match subscription_id with
    | none => (st, "success")
    | some sid =>
      let st1 := updateSubs st (fun s => s.id == sid)
        (fun s =>
          { s with
            status := "active", stripeSubscriptionId := stripeSub,
            stripeCustomerId := stripeCustomer, lastPaymentStatus := "success" })
      if h : "sub" ∈ subscription_webhook_checkout_locals then absurd h (by decide)
      else (st1, "error")
  | SubEvent.invoiceCreated customer _invoice_id amount_due subscription =>
    if truthy subscription && amount_due > 0 then
      match st.subscriptions.find? (fun s => s.stripeCustomerId == customer) with
      | none => (st, "success")
      | some sub =>
        if sub.freeAccessOverride then (st, "success")
        else
          match st.businesses.find? (fun b => b.id == sub.businessId) with
          | none => (st, "success")
          | some business =>
            if business.referralCredits > 0 then
              if voidOk then
                let st1 := updateBiz st (fun b => b.id == business.id)
                  (fun b => { b with referralCredits := b.referralCredits - 1 })
                let bill : BillingDoc :=
                  { id := new_billing_id, businessId := business.id,
                    type := "credit_used", amount := (amount_due : ℚ) / 100 }
                let st2 := { st1 with billing_history := st1.billing_history ++ [bill] }
                let st3 := updateSubs st2 (fun s => s.id == sub.id)
                  (fun s =>
                    { s with
                      lastPaymentStatus := "credit_used", status := "active" })
                (st3, "success")
              else (st, "success")
            else (st, "success")
    else (st, "success")
  | SubEvent.invoicePaymentSucceeded customer =>
    match st.subscriptions.find? (fun s => s.stripeCustomerId == customer) with
    | none => (st, "success")
    | some sub =>
      let st1 := updateSubs st (fun s => s.id == sub.id)
        (fun s => { s with lastPaymentStatus := "success", failedPayments := 0 })
      (award_on_first_payment st1 sub.businessId, "success")
  | SubEvent.invoicePaymentFailed customer =>
    match st.subscriptions.find? (fun s => s.stripeCustomerId == customer) with
    | none => (st, "success")
    | some sub =>
      let failed_count := sub.failedPayments + 1
      let new_status := if failed_count < 3 then "past_due" else "inactive"
      (updateSubs st (fun s => s.id == sub.id)
        (fun s =>
          { s with
            lastPaymentStatus := "failed", failedPayments := failed_count,
            status := new_status }), "success")
  | SubEvent.customerSubscriptionDeleted sid =>
    match st.subscriptions.find? (fun s => s.stripeSubscriptionId == sid) with
    | none => (st, "success")
    | some sub =>
      (updateSubs st (fun s => s.id == sub.id)
        (fun s => { s with status := "cancelled" }), "success")
  | SubEvent.otherEvent => (st, "success")

theorem award_subscriptions_eq (st : DB) (bid : String) :
    (award_on_first_payment st bid).subscriptions = st.subscriptions := by
  unfold award_on_first_payment
  split
  · rfl
  · split
    · split
      · rfl
      · rfl
    · rfl

def subC6 : SubscriptionDoc :=
  { id := "s1", businessId := "b1", status := "past_due",
    lastPaymentStatus := "failed", failedPayments := 2, freeAccessOverride := false,
    hasPaymentMethod := true, stripeCustomerId := some "cus1",
    stripeSubscriptionId := some "ss1", stripePaymentMethodId := none }

def dbC6 : DB :=
  { users := [], businesses := [mkBiz none], services := [], staff := [],
    subscriptions := [subC6], payment_transactions := [], appointments := [],
    availability := [], notifications := [], billing_history := [] }

/-- C6 counterexample: a past_due subscription with 2 failed payments
receives a successful recurring payment; failedPayments is reset to 0
and lastPaymentStatus becomes success, but the status stays past_due
instead of becoming active as claimed. -/
theorem payment_succeeded_keeps_status_counterexample :
    ((subscription_webhook dbC6 (SubEvent.invoicePaymentSucceeded (some "cus1")) true
        "bill1").1.subscriptions.map
      (fun s => (s.status, s.failedPayments, s.lastPaymentStatus))) =
      [("past_due", (0 : Int), "success")] ∧
    ¬ ("past_due" = "active") :=
  ⟨rfl, by decide⟩

/-- C6 amended: on a successful recurring payment the subscription has
failedPayments reset to 0 and lastPaymentStatus set to success while
its status field is left unchanged; on a failed payment failedPayments
is incremented and status becomes past_due while the incremented count
is below 3, and inactive once it reaches 3 or more. -/
theorem subscription_payment_webhook_spec (st : DB) (cus : Option String)
    (voidOk : Bool) (nbid : String) (sub : SubscriptionDoc)
    (hfind : st.subscriptions.find? (fun s => s.stripeCustomerId == cus) = some sub) :
    ((subscription_webhook st (SubEvent.invoicePaymentSucceeded cus) voidOk
        nbid).1.subscriptions =
      updateFirst (fun s => s.id == sub.id)
        (fun s => { s with lastPaymentStatus := "success", failedPayments := 0 })
        st.subscriptions ∧
      ∀ s : SubscriptionDoc,
        ({ s with lastPaymentStatus := "success", failedPayments := 0 }
          : SubscriptionDoc).status = s.status) ∧
    (subscription_webhook st (SubEvent.invoicePaymentFailed cus) voidOk
        nbid).1.subscriptions =
      updateFirst (fun s => s.id == sub.id)
        (fun s =>
          { s with
            lastPaymentStatus := "failed", failedPayments := sub.failedPayments + 1,
            status := if sub.failedPayments + 1 < 3 then "past_due" else "inactive" })
        st.subscriptions := by
  refine ⟨⟨?_, fun s => rfl⟩, ?_⟩
  · unfold subscription_webhook
    simp only [hfind]
    rw [award_subscriptions_eq]
    rfl
  · unfold subscription_webhook
    simp only [hfind]
    rfl

/-- Witness for C6 at the concrete past_due subscription with 2 prior
failures: the third failure makes it inactive, a success resets the
counter. -/
theorem subscription_payment_webhook_spec_witness :
    ((subscription_webhook dbC6 (SubEvent.invoicePaymentSucceeded (some "cus1")) true
        "bill1").1.subscriptions =
      updateFirst (fun s => s.id == subC6.id)
        (fun s => { s with lastPaymentStatus := "success", failedPayments := 0 })
        dbC6.subscriptions) ∧
    (subscription_webhook dbC6 (SubEvent.invoicePaymentFailed (some "cus1")) true
        "bill1").1.subscriptions =
      updateFirst (fun s => s.id == subC6.id)
        (fun s =>
          { s with
            lastPaymentStatus := "failed", failedPayments := subC6.failedPayments + 1,
            status :=
              if subC6.failedPayments + 1 < 3 then "past_due" else "inactive" })
        dbC6.subscriptions :=
  ⟨(subscription_payment_webhook_spec dbC6 (some "cus1") true "bill1" subC6 rfl).1.1,
    (subscription_payment_webhook_spec dbC6 (some "cus1") true "bill1" subC6 rfl).2⟩

/-! ### C7: referral award on the first payment webhook -/

def bizReferrer : BusinessDoc :=
  { id := "b0", ownerId := "o0", businessName := "Referrer", approved := true,
    depositLevel := none, stripeConnectOnboarded := false,
    stripeConnectAccountId := none, referralCode := some "REFCODE",
    referredBy := none, referralBonusPaid := false, referralCredits := 0,
    isCenturion := true }

def bizReferred : BusinessDoc :=
  { id := "b1", ownerId := "o1", businessName := "Referred", approved := true,
    depositLevel := none, stripeConnectOnboarded := false,
    stripeConnectAccountId := none, referralCode := none,
    referredBy := some "REFCODE", referralBonusPaid := false, referralCredits := 0,
    isCenturion := false }

def subC7 : SubscriptionDoc :=
  { id := "s1", businessId := "b1", status := "trial",
    lastPaymentStatus := "pending", failedPayments := 0, freeAccessOverride := false,
    hasPaymentMethod := true, stripeCustomerId := some "cus1",
    stripeSubscriptionId := none, stripePaymentMethodId := none }

def dbC7 : DB :=
  { users := [], businesses := [bizReferrer, bizReferred], services := [], staff := [],
    subscriptions := [subC7], payment_transactions := [], appointments := [],
    availability := [], notifications := [], billing_history := [] }

/-- C7: on a checkout.session.completed event for the referred business
first payment, the handler reads the local name sub before any
assignment to it (server.py line 1858), so the webhook returns the
error outcome and no referral credits are awarded and the
referralBonusPaid flag stays false, even though the Centurion referrer
should have received 2 credits; the subscription status update that
precedes the crash has already been applied. -/
theorem checkout_completed_referral_crash :
    "sub" ∉ subscription_webhook_checkout_locals ∧
    (subscription_webhook dbC7
      (SubEvent.checkoutSessionCompleted (some "s1") (some "ss1") (some "cus1"))
      true "bill1").2 = "error" ∧
    ((subscription_webhook dbC7
        (SubEvent.checkoutSessionCompleted (some "s1") (some "ss1") (some "cus1"))
        true "bill1").1.businesses.map
      (fun b => (b.referralCredits, b.referralBonusPaid))) =
      [((0 : Int), false), ((0 : Int), false)] ∧
    ((subscription_webhook dbC7
        (SubEvent.checkoutSessionCompleted (some "s1") (some "ss1") (some "cus1"))
        true "bill1").1.subscriptions.map (fun s => s.status)) = ["active"] ∧
    ((award_on_first_payment dbC7 "b1").businesses.map
      (fun b => (b.referralCredits, b.referralBonusPaid))) =
      [((2 : Int), false), ((0 : Int), true)] :=
  ⟨by decide, rfl, rfl, rfl, rfl⟩

/-! ## Account reactivation (server.py lines 2170-2341) -/

/-- Outcome of the immediate off-session stripe.PaymentIntent.create:
succeeded status, any non-succeeded status, a CardError raise, or
another StripeError raise. -/
inductive ChargeOutcome where
  | succeeded
  | failedStatus
  | cardError
  | stripeError
deriving DecidableEq, Repr

inductive ReactivateResult where
  | httpError (status : Nat) (detail : String)
  | freeAccess
  | creditUsed (amountCharged : ℚ) (creditsRemaining : Int)
  | charged (amountCharged : ℚ)
deriving DecidableEq, Repr

/-- reactivate_account: role and lookups, free-access early return,
lazy Stripe customer creation, then either consume one referral credit
(no charge) or charge the monthly price computed by passing the boolean
is_centurion where calculate_subscription_price expects the tier
string; on success the subscription becomes active, on a card error the
handler re-raises HTTP 400 without touching the subscription, and a
non-succeeded intent status raises HTTPException(400) inside the try
block, which the generic except turns into HTTP 500. -/
def reactivate_account (st : DB) (user : UserDoc) (paymentMethodId : String)
    (newCustomerId : String) (charge : ChargeOutcome)
    (new_notification_id : String) : DB × ReactivateResult :=
  if !(user.role == "business_owner") then
    (st, ReactivateResult.httpError 403 "Only business owners can reactivate accounts")
  else
    match st.businesses.find? (fun b => b.ownerId == user.id) with
    | none => (st, ReactivateResult.httpError 404 "Business not found")
    | some business =>
      match st.subscriptions.find? (fun s => s.businessId == business.id) with
      | none => (st, ReactivateResult.httpError 404 "Subscription not found")
      | some subscription =>
        if subscription.freeAccessOverride then (st, ReactivateResult.freeAccess)
        else
          let st1 :=
            match subscription.stripeCustomerId with
            | some _ => st
            | none =>
              updateSubs st (fun s => s.id == subscription.id)
                (fun s => { s with stripeCustomerId := some newCustomerId })
          let staff_count0 : Int :=
            (st.staff.countP (fun sm => sm.businessId == business.id) : Nat)
          let staff_count := if staff_count0 == 0 then 1 else staff_count0
          let monthly_price :=
            calculate_subscription_price staff_count (PyVal.bool business.isCenturion)
          let referral_credits := business.referralCredits
          if referral_credits > 0 then
            let st2 := updateBiz st1 (fun b => b.id == business.id)
              (fun b => { b with referralCredits := b.referralCredits - 1 })
            let st3 := updateSubs st2 (fun s => s.id == subscription.id)
              (fun s =>
                { s with
                  status := "active", hasPaymentMethod := true,
                  stripePaymentMethodId := some paymentMethodId,
                  lastPaymentStatus := "credit_used" })
            let notif : NotificationDoc :=
              { id := new_notification_id, userId := user.id,
                type := "account_reactivated", title := "Account Reactivated",
                read := false }
            let st4 := { st3 with notifications := st3.notifications ++ [notif] }
            (st4, ReactivateResult.creditUsed 0 (referral_credits - 1))
          else
            match charge with
            | ChargeOutcome.succeeded =>
              let st2 := updateSubs st1 (fun s => s.id == subscription.id)
                (fun s =>
                  { s with
                    status := "active", hasPaymentMethod := true,
                    stripePaymentMethodId := some paymentMethodId,
                    lastPaymentStatus := "succeeded", failedPayments := 0 })
              let notif : NotificationDoc :=
                { id := new_notification_id, userId := user.id,
                  type := "account_reactivated", title := "Account Reactivated",
                  read := false }
              let st3 := { st2 with notifications := st2.notifications ++ [notif] }
              (st3, ReactivateResult.charged monthly_price)
            | ChargeOutcome.failedStatus =>
              (st1, ReactivateResult.httpError 500 "Failed to reactivate account")
            | ChargeOutcome.cardError =>
              (st1, ReactivateResult.httpError 400 "Card declined")
            | ChargeOutcome.stripeError =>
              (st1, ReactivateResult.httpError 500 "Payment processing failed")

def ownerUser : UserDoc :=
  { id := "o1", email := "o@x.com", fullName := "Owner", role := "business_owner" }

def bizC8 : BusinessDoc :=
  { id := "b1", ownerId := "o1", businessName := "Shop", approved := true,
    depositLevel := none, stripeConnectOnboarded := false,
    stripeConnectAccountId := none, referralCode := none, referredBy := none,
    referralBonusPaid := false, referralCredits := 0, isCenturion := true }

def subC8 : SubscriptionDoc :=
  { id := "s1", businessId := "b1", status := "inactive",
    lastPaymentStatus := "failed", failedPayments := 3, freeAccessOverride := false,
    hasPaymentMethod := false, stripeCustomerId := some "cus1",
    stripeSubscriptionId := none, stripePaymentMethodId := none }

def dbC8 : DB :=
  { users := [ownerUser], businesses := [bizC8], services := [],
    staff := [{ id := "st1", businessId := "b1", name := "Ann" }],
    subscriptions := [subC8], payment_transactions := [], appointments := [],
    availability := [], notifications := [], billing_history := [] }

def dbC8credit : DB :=
  { dbC8 with businesses := [{ bizC8 with referralCredits := 1 }] }

/-- C8: at the failing input (Centurion business, one staff member, no
referral credits, charge succeeds) the reactivation charges 16.00, the
standard-tier price, because reactivate_account passes the boolean
is_centurion where calculate_subscription_price expects the tier
string, while the business's own (centurion) monthly price is 10.00;
the credit and error paths behave as claimed: with a credit available
one credit is consumed with no charge and status becomes active, and a
card error leaves the subscription status unchanged. -/
theorem reactivate_charges_standard_price_for_centurion :
    (reactivate_account dbC8 ownerUser "pm1" "cus_new" ChargeOutcome.succeeded
      "n1").2 = ReactivateResult.charged 16 ∧
    calculate_subscription_price 1 (PyVal.str "centurion") = 10 ∧
    pyEq (PyVal.bool true) (PyVal.str "centurion") = false ∧
    ¬ ((16 : ℚ) = 10) ∧
    ((reactivate_account dbC8 ownerUser "pm1" "cus_new" ChargeOutcome.succeeded
      "n1").1.subscriptions.map (fun s => s.status)) = ["active"] ∧
    ((reactivate_account dbC8 ownerUser "pm1" "cus_new" ChargeOutcome.cardError
      "n1").1.subscriptions.map (fun s => s.status)) = ["inactive"] ∧
    (reactivate_account dbC8credit ownerUser "pm1" "cus_new" ChargeOutcome.cardError
      "n1").2 = ReactivateResult.creditUsed 0 0 ∧
    ((reactivate_account dbC8credit ownerUser "pm1" "cus_new" ChargeOutcome.cardError
      "n1").1.businesses.map (fun b => b.referralCredits)) = [0] ∧
    ((reactivate_account dbC8credit ownerUser "pm1" "cus_new" ChargeOutcome.cardError
      "n1").1.subscriptions.map (fun s => s.status)) = ["active"] :=
  ⟨rfl, rfl, rfl, by decide, rfl, rfl, rfl, rfl, rfl⟩

/-! ## Appointment status update (server.py lines 3365-3469) -/

inductive StatusUpdateResult where
  | httpError (code : Nat) (detail : String)
  | ok (refunded : Option ℚ)
deriving DecidableEq, Repr

/-- Python str.title() for the single-word status strings. -/
def pyTitle (s : String) : String :=
  match s.data with
  | [] => ""
  | c :: r => String.mk (c.toUpper :: r.map Char.toLower)

/-- update_one on the payment_transactions collection. -/
def updateTx (st : DB) (p : TransactionDoc → Bool)
    (f : TransactionDoc → TransactionDoc) : DB :=
  { st with payment_transactions := updateFirst p f st.payment_transactions }

/-- update_one on the appointments collection. -/
def updateAppts (st : DB) (p : AppointmentDoc → Bool)
    (f : AppointmentDoc → AppointmentDoc) : DB :=
  { st with appointments := updateFirst p f st.appointments }

/-- The refund block of update_appointment_status (server.py lines
3375-3413): runs only when declining a deposit-paid appointment with a
transaction; refund models the outcome of the Stripe session retrieval
plus refund creation (none = no payment intent or an exception, which
the code logs and swallows). It updates only refund fields. -/
def refund_stage (st : DB) (appointment_id status : String)
    (appointment : AppointmentDoc) (refund : Option ℚ) : DB × Option ℚ :=
  if status == "declined" && appointment.depositPaid &&
      truthy (some appointment.transactionId) then
    match st.payment_transactions.find? (fun t => t.id == appointment.transactionId) with
    | none => (st, none)
    | some tx =>
      if truthy tx.sessionId then
        match refund with
        | none => (st, none)
        | some amt =>
          let stA := updateTx st (fun t => t.id == tx.id)
            (fun t => { t with refundAmount := some amt })
          let stB := updateAppts stA (fun a => a.id == appointment_id)
            (fun a =>
              { a with
                depositRefunded := true, refundAmount := some amt })
          (stB, some amt)
      else (st, none)
  else (st, none)

/-- update_appointment_status: look up the business of the owner and
the appointment, run the refund block when declining, then set the
requested status unconditionally on the appointment and insert the
customer notification. No status-transition validation is performed
anywhere in the handler. -/
def update_appointment_status (st : DB) (appointment_id status : String)
    (user : UserDoc) (refund : Option ℚ) (new_notification_id : String) :
    DB × StatusUpdateResult :=
  if !(user.role == "business_owner") then
    (st, StatusUpdateResult.httpError 403 "Not authorized")
  else
    match st.businesses.find? (fun b => b.ownerId == user.id) with
    | none => (st, StatusUpdateResult.httpError 500 "Internal Server Error")
    | some business =>
      match st.appointments.find?
          (fun a => a.id == appointment_id && a.businessId == business.id) with
      | none => (st, StatusUpdateResult.httpError 404 "Appointment not found")
      | some appointment =>
        let rs := refund_stage st appointment_id status appointment refund
        let st2 := updateAppts rs.1 (fun a => a.id == appointment_id)
          (fun a => { a with status := status })
        let notif : NotificationDoc :=
          { id := new_notification_id, userId := appointment.userId,
            type := "booking_" ++ status, title := "Booking " ++ pyTitle status,
            read := false }
        let st3 := { st2 with notifications := st2.notifications ++ [notif] }
        (st3, StatusUpdateResult.ok rs.2)

theorem updateFirst_map_invariant {α β : Type} (p : α → Bool) (f : α → α)
    (g : α → β) (h : ∀ x, g (f x) = g x) (l : List α) :
    (updateFirst p f l).map g = l.map g := by
  induction l with
  | nil => rfl
  | cons x xs ih => cases hp : p x <;> simp [updateFirst, hp, h, ih]

/-- The refund block touches only refund fields: every appointment
keeps its id and status. -/
theorem refund_stage_preserves_status (st : DB) (aid s : String)
    (a : AppointmentDoc) (refund : Option ℚ) :
    ((refund_stage st aid s a refund).1.appointments.map
      (fun x => (x.id, x.status))) =
      st.appointments.map (fun x => (x.id, x.status)) := by
  unfold refund_stage
  split
  · split
    · rfl
    · split
      · cases refund with
        | none => rfl
        | some amt =>
          simp only [updateAppts, updateTx]
          exact updateFirst_map_invariant (fun a => a.id == aid)
            (fun a => { a with depositRefunded := true, refundAmount := some amt })
            (fun x => (x.id, x.status)) (fun x => rfl) st.appointments
      · rfl
  · rfl

/-- C9 amended: update_appointment_status performs no transition
validation: for any found appointment it sets the requested status
unconditionally (the preceding refund block changes no status), so
declined and cancelled are not terminal under this endpoint. -/
theorem update_appointment_status_spec (st : DB) (aid s : String) (user : UserDoc)
    (refund : Option ℚ) (nid : String) (b : BusinessDoc) (a : AppointmentDoc)
    (hrole : user.role = "business_owner")
    (hb : st.businesses.find? (fun x => x.ownerId == user.id) = some b)
    (ha : st.appointments.find?
      (fun x => x.id == aid && x.businessId == b.id) = some a) :
    ∃ mid : List AppointmentDoc,
      mid.map (fun x => (x.id, x.status)) =
        st.appointments.map (fun x => (x.id, x.status)) ∧
      (update_appointment_status st aid s user refund nid).1.appointments =
        updateFirst (fun x => x.id == aid) (fun x => { x with status := s }) mid ∧
      ∃ r, (update_appointment_status st aid s user refund nid).2 =
        StatusUpdateResult.ok r := by
  have hrole' : (!(user.role == "business_owner")) = false := by
    simp [hrole]
  unfold update_appointment_status
  simp only [hrole', Bool.false_eq_true, if_false, hb, ha]
  exact ⟨(refund_stage st aid s a refund).1.appointments,
    refund_stage_preserves_status st aid s a refund, rfl,
    (refund_stage st aid s a refund).2, rfl⟩

def apptC9 : AppointmentDoc :=
  { apptC1 with id := "a9", status := "cancelled", depositPaid := false }

def dbC9 : DB :=
  { users := [], businesses := [mkBiz none], services := [], staff := [],
    subscriptions := [], payment_transactions := [], appointments := [apptC9],
    availability := [], notifications := [], billing_history := [] }

/-- C9 counterexample: a cancelled appointment is moved to confirmed by
update_appointment_status, so cancelled is not terminal and the claimed
transition relation is violated. -/
theorem appointment_terminal_status_counterexample :
    dbC9.appointments.map (fun a => a.status) = ["cancelled"] ∧
    ((update_appointment_status dbC9 "a9" "confirmed" ownerUser none
      "n9").1.appointments.map (fun a => a.status)) = ["confirmed"] ∧
    ((update_appointment_status dbC9 "a9" "confirmed" ownerUser none "n9").2 =
      StatusUpdateResult.ok none) :=
  ⟨rfl, rfl, rfl⟩

/-- Witness for C9 at the concrete cancelled appointment: the requested
status completed is applied unconditionally. -/
theorem update_appointment_status_spec_witness :
    ∃ mid : List AppointmentDoc,
      mid.map (fun x => (x.id, x.status)) =
        dbC9.appointments.map (fun x => (x.id, x.status)) ∧
      (update_appointment_status dbC9 "a9" "completed" ownerUser none
        "n9").1.appointments =
        updateFirst (fun x => x.id == "a9") (fun x => { x with status := "completed" })
          mid ∧
      ∃ r, (update_appointment_status dbC9 "a9" "completed" ownerUser none "n9").2 =
        StatusUpdateResult.ok r :=
  update_appointment_status_spec dbC9 "a9" "completed" ownerUser none "n9"
    (mkBiz none) apptC9 rfl rfl rfl

end Calendrax
